import Mathlib

/-!
Shallow embedding of snimpy's SNMP engine (src/snimpy/snmp.c) and proofs
about it.  The definitions mirror the C functions `tuple2oid`,
`Snmp_convert_object`, `Snmp_init` and `Snmp_op`; network-side behaviour
(the result of the send/select loop) is a parameter of the model, since
the peer is external to the program.  Numeric constants (`ASN_*`,
`SNMP_ERR_*`, `MAX_OID_LEN`, ...) carry the values of the net-snmp
headers the C file includes.
-/

namespace Snimpy

/-! ### net-snmp header constants (asn1.h / snmp.h) -/

def MAX_OID_LEN : Nat := 128

def ASN_INTEGER : Nat := 0x02
def ASN_BIT_STR : Nat := 0x03
def ASN_OCTET_STR : Nat := 0x04
def ASN_OBJECT_ID : Nat := 0x06
def ASN_IPADDRESS : Nat := 0x40
def ASN_COUNTER : Nat := 0x41
def ASN_GAUGE : Nat := 0x42
def ASN_TIMETICKS : Nat := 0x43
def ASN_COUNTER64 : Nat := 0x46
def ASN_UINTEGER : Nat := 0x47
def ASN_OPAQUE_COUNTER64 : Nat := 0x76
def ASN_OPAQUE_FLOAT : Nat := 0x78
def ASN_OPAQUE_DOUBLE : Nat := 0x79
def ASN_OPAQUE_I64 : Nat := 0x7A
def ASN_OPAQUE_U64 : Nat := 0x7B
def SNMP_NOSUCHOBJECT : Nat := 0x80
def SNMP_NOSUCHINSTANCE : Nat := 0x81
def SNMP_ENDOFMIBVIEW : Nat := 0x82

def SNMP_ERR_TOOBIG : Nat := 1
def SNMP_ERR_NOSUCHNAME : Nat := 2
def SNMP_ERR_BADVALUE : Nat := 3
def SNMP_ERR_READONLY : Nat := 4
def SNMP_ERR_GENERR : Nat := 5
def SNMP_ERR_NOACCESS : Nat := 6
def SNMP_ERR_WRONGTYPE : Nat := 7
def SNMP_ERR_WRONGLENGTH : Nat := 8
def SNMP_ERR_WRONGENCODING : Nat := 9
def SNMP_ERR_WRONGVALUE : Nat := 10
def SNMP_ERR_NOCREATION : Nat := 11
def SNMP_ERR_INCONSISTENTVALUE : Nat := 12
def SNMP_ERR_RESOURCEUNAVAILABLE : Nat := 13
def SNMP_ERR_COMMITFAILED : Nat := 14
def SNMP_ERR_UNDOFAILED : Nat := 15
def SNMP_ERR_AUTHORIZATIONERROR : Nat := 16
def SNMP_ERR_NOTWRITABLE : Nat := 17
def SNMP_ERR_INCONSISTENTNAME : Nat := 18

/-- `SNMP_DEFAULT_VERSION` from net-snmp: sentinel meaning "use the
library default". -/
def SNMP_DEFAULT_VERSION : Int := -1

/-! ### Basic data model -/

/-- SNMP protocol versions as stored in the session
(`SNMP_VERSION_1` / `SNMP_VERSION_2c` / `SNMP_VERSION_3`). -/
inductive SnmpVersion
  | v1
  | v2c
  | v3
deriving DecidableEq, Repr

/-- The four PDU commands `Snmp_op` is invoked with, one per public
method (`Snmp_get`, `Snmp_getnext`, `Snmp_set`, `Snmp_getbulk`). -/
inductive Op
  | get
  | getnext
  | set
  | getbulk
deriving DecidableEq, Repr

/-- Python-level values handed to the C methods.  `.int` covers both
`PyInt` and `PyLong`; `.packed t b` stands for an instance of
`basictypes.Type` whose `pack()` method yields the `(tag, bytes)` pair
`(t, b)`; `.obj` is any other Python object. -/
inductive PyVal
  | int (i : Int)
  | str (s : String)
  | tuple (elems : List PyVal)
  | packed (tag : Nat) (bytes : List Nat)
  | obj
deriving Repr

/-- C cast of a (signed) value to `unsigned long` (64-bit): reduction
modulo 2^64, as performed by `(oid)PyLong_AsUnsignedLong` /
`(unsigned long)*vars->val.integer`. -/
def ulongOfInt (i : Int) : Nat := (i.emod (2 ^ 64)).toNat

/-- The `SnmpObject` C struct fields that the modelled operations read
or write (session version plus the GETBULK tunables; `use_bulk` is set
at init and only consulted by the Python layer). -/
structure SnmpObject where
  version : SnmpVersion
  bulk_non_repeaters : Nat
  bulk_max_repetitions : Nat
  use_bulk : Bool
deriving DecidableEq, Repr

/-- Errors `Snmp_op` and its helpers can raise (each constructor is one
`PyErr_*` site of snmp.c). -/
inductive OpErr
  | notEnoughArgs
  | oddArityForSet
  | getbulkOnV1
  | oidNotTuple
  | oidTooLarge
  | oidElementNotInteger
  | indexOutOfRange
  | notBasicType
  | sendFailed
  | transportFailed
  | mappedError (code : Nat) (name : String)
  | unknownError (code : Nat)
  | emptyAnswer
  | tooManyAnswers
  | noSuchObject
  | noSuchInstance
  | endOfMibView
  | ipTooShort (len : Nat)
  | unknownType (tag : Nat)
deriving DecidableEq, Repr

/-! ### tuple2oid -/

/-- The per-element loop of `tuple2oid`: each element must be a Python
integer (`PyLong_Check` / `PyInt_Check`); the first non-integer element
raises the TypeError.  Integers are cast to the unsigned `oid` type. -/
def oidElems : List PyVal → Except OpErr (List Nat)
  | [] => .ok []
  | .int i :: rest => (oidElems rest).map (fun t => ulongOfInt i :: t)
  | _ :: _ => .error .oidElementNotInteger

/-- `tuple2oid` (snmp.c:72-105): the argument must be a tuple, its
length must not exceed the buffer capacity (`Snmp_op` passes
`MAX_OID_LEN`), and every element must be an integer. -/
def tuple2oid (v : PyVal) (maxLen : Nat) : Except OpErr (List Nat) :=
  match v with
  | .tuple elems =>
    if elems.length > maxLen then .error .oidTooLarge
    else oidElems elems
  | _ => .error .oidNotTuple

/-! ### Response decoding -/

/-- One received variable binding (`struct variable_list`): the name
OID, the wire tag `vtype`, and the union payload fields that the decode
switch reads.  `valString` models the `val.string` / `val.bitstring`
buffer (whose length is `val_len`); `c64high` / `c64low` are the two
`struct counter64` halves; `floatBits` / `doubleBits` stand for the
opaque IEEE-754 payloads, carried through uninterpreted. -/
structure VarBinding where
  name : List Nat
  vtype : Nat
  valInteger : Int := 0
  valString : List Nat := []
  valObjid : List Nat := []
  c64high : Nat := 0
  c64low : Nat := 0
  floatBits : Nat := 0
  doubleBits : Nat := 0
deriving DecidableEq, Repr, Inhabited

/-- Decoded Python result values: `PyLong` (signed or unsigned),
`PyString`, OID tuple, dotted-quad IP string, and floats. -/
inductive Value
  | intVal (i : Int)
  | uintVal (n : Nat)
  | strVal (bytes : List Nat)
  | oidVal (o : List Nat)
  | ipaddr (a b c d : Nat)
  | uint64 (n : Nat)
  | floatVal (bits : Nat)
  | doubleVal (bits : Nat)
deriving DecidableEq, Repr, Inhabited

/-- The Counter64 reconstruction of snmp.c:631-633:
`((unsigned long long)high << 32) + (unsigned long long)low`, fed
through `long long` and back to `unsigned long long` for
`PyLong_FromUnsignedLongLong` — i.e. arithmetic modulo 2^64. -/
def decodeCounter64 (high low : Nat) : Nat := ((high <<< 32) + low) % 2 ^ 64

/-- The decode switch of `Snmp_op` (snmp.c:576-648): sentinel tags raise
their dedicated exceptions, recognized tags produce a value, and any
other tag raises "unknown type returned" carrying the raw tag. -/
def decodeVar (v : VarBinding) : Except OpErr Value :=
  if v.vtype = SNMP_NOSUCHOBJECT then .error .noSuchObject
  else if v.vtype = SNMP_NOSUCHINSTANCE then .error .noSuchInstance
  else if v.vtype = SNMP_ENDOFMIBVIEW then .error .endOfMibView
  else if v.vtype = ASN_INTEGER then .ok (.intVal v.valInteger)
  else if v.vtype = ASN_UINTEGER ∨ v.vtype = ASN_TIMETICKS ∨
          v.vtype = ASN_GAUGE ∨ v.vtype = ASN_COUNTER then
    .ok (.uintVal (ulongOfInt v.valInteger))
  else if v.vtype = ASN_OCTET_STR then .ok (.strVal v.valString)
  else if v.vtype = ASN_BIT_STR then .ok (.strVal v.valString)
  else if v.vtype = ASN_OBJECT_ID then .ok (.oidVal v.valObjid)
  else if v.vtype = ASN_IPADDRESS then
    if v.valString.length < 4 then .error (.ipTooShort v.valString.length)
    else .ok (.ipaddr (v.valString.getD 0 0) (v.valString.getD 1 0)
                      (v.valString.getD 2 0) (v.valString.getD 3 0))
  else if v.vtype = ASN_COUNTER64 ∨ v.vtype = ASN_OPAQUE_U64 ∨
          v.vtype = ASN_OPAQUE_I64 ∨ v.vtype = ASN_OPAQUE_COUNTER64 then
    .ok (.uint64 (decodeCounter64 v.c64high v.c64low))
  else if v.vtype = ASN_OPAQUE_FLOAT then .ok (.floatVal v.floatBits)
  else if v.vtype = ASN_OPAQUE_DOUBLE then .ok (.doubleVal v.doubleBits)
  else .error (.unknownType v.vtype)

/-- The wire tags the decode switch recognizes (sentinels included). -/
def recognizedTags : List Nat :=
  [SNMP_NOSUCHOBJECT, SNMP_NOSUCHINSTANCE, SNMP_ENDOFMIBVIEW,
   ASN_INTEGER, ASN_UINTEGER, ASN_TIMETICKS, ASN_GAUGE, ASN_COUNTER,
   ASN_OCTET_STR, ASN_BIT_STR, ASN_OBJECT_ID, ASN_IPADDRESS,
   ASN_COUNTER64, ASN_OPAQUE_U64, ASN_OPAQUE_I64, ASN_OPAQUE_COUNTER64,
   ASN_OPAQUE_FLOAT, ASN_OPAQUE_DOUBLE]

/-! ### Error-status table -/

/-- The `SnmpErrorToException` table (snmp.c:38-58): error-status code
to exception name, in source order. -/
def SnmpErrorToException : List (Nat × String) :=
  [(SNMP_ERR_TOOBIG, "SNMPTooBig"),
   (SNMP_ERR_NOSUCHNAME, "SNMPNoSuchName"),
   (SNMP_ERR_BADVALUE, "SNMPBadValue"),
   (SNMP_ERR_READONLY, "SNMPReadonly"),
   (SNMP_ERR_GENERR, "SNMPGenerr"),
   (SNMP_ERR_NOACCESS, "SNMPNoAccess"),
   (SNMP_ERR_WRONGTYPE, "SNMPWrongType"),
   (SNMP_ERR_WRONGLENGTH, "SNMPWrongLength"),
   (SNMP_ERR_WRONGENCODING, "SNMPWrongEncoding"),
   (SNMP_ERR_WRONGVALUE, "SNMPWrongValue"),
   (SNMP_ERR_NOCREATION, "SNMPNoCreation"),
   (SNMP_ERR_INCONSISTENTVALUE, "SNMPInconsistentValue"),
   (SNMP_ERR_RESOURCEUNAVAILABLE, "SNMPResourceUnavailable"),
   (SNMP_ERR_COMMITFAILED, "SNMPCommitFailed"),
   (SNMP_ERR_UNDOFAILED, "SNMPUndoFailed"),
   (SNMP_ERR_AUTHORIZATIONERROR, "SNMPAuthorizationError"),
   (SNMP_ERR_NOTWRITABLE, "SNMPNotWritable"),
   (SNMP_ERR_INCONSISTENTNAME, "SNMPInconsistentName")]

/-- The lookup loop of snmp.c:547-552: walk the table, first entry whose
code matches wins. -/
def findErrName (code : Nat) : List (Nat × String) → Option String
  | [] => none
  | (c, n) :: rest => if code = c then some n else findErrName code rest

/-- Exception selected for a non-zero error-status, if the table has an
entry for it. -/
def findErrorException (code : Nat) : Option String :=
  findErrName code SnmpErrorToException

/-! ### Request building -/

/-- `Snmp_convert_object` (snmp.c:351-386): the SET value must be a
`basictypes.Type` instance; its `pack()` result supplies the wire tag
and payload bytes.  Anything else raises "can only set basictypes". -/
def Snmp_convert_object : PyVal → Except OpErr (Nat × List Nat)
  | .packed tag bytes => .ok (tag, bytes)
  | _ => .error .notBasicType

/-- One variable added to the request PDU: the OID, plus for SET the
`(tag, bytes)` payload (`snmp_pdu_add_variable`), otherwise a null
variable (`snmp_add_null_var`). -/
structure ReqBinding where
  oid : List Nat
  payload : Option (Nat × List Nat)
deriving DecidableEq, Repr

/-- The argument loop of `Snmp_op` (snmp.c:474-493): each argument is
converted with `tuple2oid`; for SET the following argument is packed as
the value and the loop advances by two. -/
def buildBindings (isSet : Bool) : List PyVal → Except OpErr (List ReqBinding)
  | [] => .ok []
  | roid :: rest =>
    match tuple2oid roid MAX_OID_LEN with
    | .error e => .error e
    | .ok o =>
      if isSet then
        match rest with
        | [] => .error .indexOutOfRange
        | setobject :: rest2 =>
          match Snmp_convert_object setobject with
          | .error e => .error e
          | .ok tb =>
            match buildBindings true rest2 with
            | .error e => .error e
            | .ok bs => .ok (⟨o, some tb⟩ :: bs)
      else
        match buildBindings false rest with
        | .error e => .error e
        | .ok bs => .ok (⟨o, none⟩ :: bs)

/-! ### Response handling -/

/-- A received response PDU: global error-status and the variable list. -/
structure ResponsePdu where
  errstat : Nat
  varlist : List VarBinding
deriving DecidableEq, Repr

/-- What the external send/select exchange produced: `sendFail` models
`snmp_sess_async_send` returning 0 (nothing went on the wire),
`timedOut` / `disconnected` the corresponding callback outcomes
(`STAT_TIMEOUT` / `STAT_ERROR`), and `success resp` a received
`SNMP_MSG_RESPONSE`. -/
inductive NetOutcome
  | sendFail
  | timedOut
  | disconnected
  | success (resp : ResponsePdu)
deriving DecidableEq, Repr

/-- The result-tuple size chosen at snmp.c:562-568: `bulk_max_repetitions`
for GETBULK, otherwise the number of request bindings. -/
def tupleSizeFor (self : SnmpObject) (op : Op) (argc : Nat) : Nat :=
  if op = Op.getbulk then self.bulk_max_repetitions
  else argc / (if op = Op.set then 2 else 1)

/-- The response-variable loop of snmp.c:569-661: bound check first
(`Received too many answers`), then the decode switch, accumulating
`(oid, value)` pairs in response order.  The `size` argument is the
number of free slots left in the result tuple. -/
def handleVars : List VarBinding → Nat → Except OpErr (List (List Nat × Value))
  | [], _ => .ok []
  | v :: rest, size =>
    if size = 0 then .error .tooManyAnswers
    else
      match decodeVar v with
      | .error e => .error e
      | .ok value =>
        match handleVars rest (size - 1) with
        | .error e => .error e
        | .ok tail => .ok ((v.name, value) :: tail)

/-- Response processing of `Snmp_op` after a successful exchange
(snmp.c:546-663): error-status mapping, empty-answer check, then the
variable loop.  The returned list models the Python result tuple:
`PyTuple_New size` creates `size` slots and the loop fills the first
ones, so unfilled slots are `none`. -/
def processResponse (self : SnmpObject) (argc : Nat) (op : Op)
    (resp : ResponsePdu) : Except OpErr (List (Option (List Nat × Value))) :=
  if resp.errstat ≠ 0 then
    match findErrorException resp.errstat with
    | some name => .error (.mappedError resp.errstat name)
    | none => .error (.unknownError resp.errstat)
  else if resp.varlist = [] then .error .emptyAnswer
  else
    let size := tupleSizeFor self op argc
    match handleVars resp.varlist size with
    | .error e => .error e
    | .ok pairs =>
      .ok (pairs.map some ++ List.replicate (size - pairs.length) none)

deriving instance DecidableEq for Except

/-- Outcome of one `Snmp_op` call, with the side facts the claims talk
about: whether `snmp_pdu_create` ran (`pduBuilt`), whether anything was
handed to the network (`sent`), and the session object afterwards
(`Snmp_op` never mutates it). -/
structure OpResult where
  outcome : Except OpErr (List (Option (List Nat × Value)))
  pduBuilt : Bool
  sent : Bool
  finalState : SnmpObject
deriving DecidableEq, Repr

/-- `Snmp_op` (snmp.c:435-677).  Local checks in source order: argument
count, SET arity, GETBULK-on-v1; then the PDU is built (OID conversion
and SET value packing); then the exchange happens and the response is
processed.  `net` abstracts the peer's behaviour. -/
def Snmp_op (self : SnmpObject) (args : List PyVal) (op : Op)
    (net : NetOutcome) : OpResult :=
  if args.length < 1 then ⟨.error .notEnoughArgs, false, false, self⟩
  else if op = Op.set ∧ args.length % 2 ≠ 0 then
    ⟨.error .oddArityForSet, false, false, self⟩
  else if op = Op.getbulk ∧ self.version = SnmpVersion.v1 then
    ⟨.error .getbulkOnV1, false, false, self⟩
  else
    match buildBindings (decide (op = Op.set)) args with
    | .error e => ⟨.error e, true, false, self⟩
    | .ok _ =>
      match net with
      | .sendFail => ⟨.error .sendFailed, true, false, self⟩
      | .timedOut => ⟨.error .transportFailed, true, true, self⟩
      | .disconnected => ⟨.error .transportFailed, true, true, self⟩
      | .success resp =>
        ⟨processResponse self args.length op resp, true, true, self⟩

/-! ### Session construction -/

/-- USM authentication protocols accepted at snmp.c:237-242. -/
inductive AuthProto
  | md5
  | sha
deriving DecidableEq, Repr

/-- USM privacy protocols accepted at snmp.c:275-281. -/
inductive PrivProto
  | des
  | aes
deriving DecidableEq, Repr

/-- `strcasecmp` against "MD5" / "SHA" (snmp.c:237-242). -/
def parseAuthProto (s : String) : Option AuthProto :=
  if s.toLower = "md5" then some AuthProto.md5
  else if s.toLower = "sha" then some AuthProto.sha
  else none

/-- `strcasecmp` against "DES" / "AES" / "AES128" (snmp.c:275-281). -/
def parsePrivProto (s : String) : Option PrivProto :=
  if s.toLower = "des" then some PrivProto.des
  else if s.toLower = "aes" ∨ s.toLower = "aes128" then some PrivProto.aes
  else none

/-- The version switch of snmp.c:187-205; `SNMP_DEFAULT_VERSION` reads
the library default, any other value is rejected. -/
def parseVersion (v : Int) (envDefault : SnmpVersion) : Option SnmpVersion :=
  if v = 1 then some SnmpVersion.v1
  else if v = 2 then some SnmpVersion.v2c
  else if v = 3 then some SnmpVersion.v3
  else if v = SNMP_DEFAULT_VERSION then some envDefault
  else none

/-- Keyword arguments of `Snmp_init` that the model needs (host,
community, seclevel and secname are converted but cannot fail once
typed; they do not influence the modelled control flow). -/
structure InitArgs where
  host : String
  community : Option String := none
  version : Int := SNMP_DEFAULT_VERSION
  seclevel : Option Int := none
  secname : Option String := none
  authprotocol : Option String := none
  authpassword : Option String := none
  privprotocol : Option String := none
  privpassword : Option String := none
deriving DecidableEq, Repr

/-- Failure modes of `Snmp_init`, one per error site. -/
inductive InitErr
  | invalidVersion (v : Int)
  | invalidAuthProtocol (s : String)
  | authPasswordWithoutProtocol
  | kuFailedAuth
  | invalidPrivProtocol (s : String)
  | privPasswordWithoutProtocols
  | kuFailedPriv
  | openFailed
deriving DecidableEq, Repr

/-- The auth-protocol and auth-password blocks (snmp.c:233-270): an
invalid protocol string is rejected; a password without a protocol is
rejected; otherwise `generate_Ku` runs (its success is the external flag
`kuOk`). -/
def checkAuth (a : InitArgs) (kuOk : Bool) : Except InitErr (Option AuthProto) :=
  match a.authprotocol with
  | none =>
    match a.authpassword with
    | none => .ok none
    | some _ => .error .authPasswordWithoutProtocol
  | some s =>
    match parseAuthProto s with
    | none => .error (.invalidAuthProtocol s)
    | some p =>
      match a.authpassword with
      | none => .ok (some p)
      | some _ => if kuOk then .ok (some p) else .error .kuFailedAuth

/-- The priv-protocol and priv-password blocks (snmp.c:271-310): an
invalid protocol string is rejected; a privacy password is rejected
unless both a privacy protocol and an auth protocol are set. -/
def checkPriv (a : InitArgs) (authProto : Option AuthProto) (kuOk : Bool) :
    Except InitErr (Option PrivProto) :=
  match a.privprotocol with
  | none =>
    match a.privpassword with
    | none => .ok none
    | some _ => .error .privPasswordWithoutProtocols
  | some s =>
    match parsePrivProto s with
    | none => .error (.invalidPrivProtocol s)
    | some p =>
      match a.privpassword with
      | none => .ok (some p)
      | some _ =>
        if authProto = none then .error .privPasswordWithoutProtocols
        else if kuOk then .ok (some p) else .error .kuFailedPriv

/-- Result of session construction: the outcome, and whether
`snmp_sess_open` was reached (`opened = false` means the failure was
purely local, before any contact toward the peer). -/
structure InitResult where
  outcome : Except InitErr SnmpObject
  opened : Bool
deriving DecidableEq, Repr

/-- `Snmp_init` (snmp.c:158-330): version parsing, security-parameter
validation, then `snmp_sess_open` (success given by `openOk`), then the
GETBULK defaults `bulk_non_repeaters = 0`, `bulk_max_repetitions = 40`
(snmp.c:320-321).  `envDefault` is the library's default version,
`kuOk` the outcome of `generate_Ku`. -/
def Snmp_init (a : InitArgs) (envDefault : SnmpVersion) (kuOk : Bool)
    (openOk : Bool) : InitResult :=
  match parseVersion a.version envDefault with
  | none => ⟨.error (.invalidVersion a.version), false⟩
  | some ver =>
    match checkAuth a kuOk with
    | .error e => ⟨.error e, false⟩
    | .ok authProto =>
      match checkPriv a authProto kuOk with
      | .error e => ⟨.error e, false⟩
      | .ok _ =>
        if openOk then
          ⟨.ok { version := ver,
                 bulk_non_repeaters := 0,
                 bulk_max_repetitions := 40,
                 use_bulk := decide (ver ≠ SnmpVersion.v1) }, true⟩
        else ⟨.error .openFailed, true⟩

/-! ### Helper lemmas -/

/-- Adding a value below `2 ^ k` to a `k`-shifted value is the same as
or-ing it in: the two summands occupy disjoint bit ranges. -/
theorem shiftLeft_lor_eq_add (x k : Nat) :
    ∀ l, l < 2 ^ k → (x <<< k) ||| l = x <<< k + l := by
  induction k with
  | zero =>
    intro l hl
    have hz : l = 0 := by
      have : (2:Nat) ^ 0 = 1 := pow_zero 2
      omega
    subst hz
    simp
  | succ k ih =>
    intro l hl
    have hb := Nat.bit_testBit_zero_shiftRight_one l
    have hlval : l = 2 * (l >>> 1) + (l.testBit 0).toNat := by
      conv_lhs => rw [← hb]
      exact Nat.bit_val _ _
    have hbt : (l.testBit 0).toNat ≤ 1 := by
      cases l.testBit 0 <;> simp
    have hpow : (2:Nat) ^ (k + 1) = 2 * 2 ^ k := by ring
    have hl2 : l >>> 1 < 2 ^ k := by omega
    have hshift : x <<< (k + 1) = Nat.bit false (x <<< k) := by
      rw [Nat.bit_val, Nat.shiftLeft_eq, Nat.shiftLeft_eq]
      simp [pow_succ]
      ring
    have hc : x <<< (k + 1) ||| l =
        Nat.bit (false || l.testBit 0) ((x <<< k) ||| (l >>> 1)) := by
      conv_lhs => rw [hshift, ← hb]
      exact Nat.lor_bit false (x <<< k) (l.testBit 0) (l >>> 1)
    rw [hc, ih (l >>> 1) hl2, Bool.false_or, Nat.bit_val]
    have hx2 : x <<< (k + 1) = 2 * (x <<< k) := by
      rw [hshift, Nat.bit_val]
      simp
    omega

/-- `handleVars` succeeds exactly on inputs that fit the result tuple,
pairing each variable with its decoded value in order. -/
theorem handleVars_ok_iff (vars : List VarBinding) :
    ∀ (size : Nat) (pairs : List (List Nat × Value)),
      handleVars vars size = .ok pairs →
      pairs.length = vars.length ∧ vars.length ≤ size ∧
      ∀ i, i < vars.length →
        ∃ w, decodeVar (vars.getD i default) = .ok w ∧
          pairs.getD i default = ((vars.getD i default).name, w) := by
  induction vars with
  | nil =>
    intro size pairs h
    simp [handleVars] at h
    subst h
    simp
  | cons v rest ih =>
    intro size pairs h
    simp only [handleVars] at h
    by_cases hs : size = 0
    · simp [hs] at h
    · simp only [hs, if_false] at h
      cases hdv : decodeVar v with
      | error e => rw [hdv] at h; simp at h
      | ok value =>
        rw [hdv] at h
        cases hrest : handleVars rest (size - 1) with
        | error e => rw [hrest] at h; simp at h
        | ok tail =>
          rw [hrest] at h
          simp at h
          subst h
          obtain ⟨hlen, hle, hidx⟩ := ih (size - 1) tail hrest
          refine ⟨by simp [hlen], by simp; omega, ?_⟩
          intro i hi
          cases i with
          | zero => exact ⟨value, by simpa using hdv, by simp⟩
          | succ j =>
            have hj : j < rest.length := by simpa using hi
            obtain ⟨w, hw1, hw2⟩ := hidx j hj
            exact ⟨w, by simpa using hw1, by simpa using hw2⟩

/-- If every variable decodes and they fit, `handleVars` succeeds with
the decoded pairs in order. -/
theorem handleVars_ok_of_decodable (vars : List VarBinding) :
    ∀ size : Nat, vars.length ≤ size →
      (∀ v ∈ vars, ∃ w, decodeVar v = .ok w) →
      ∃ pairs, handleVars vars size = .ok pairs := by
  induction vars with
  | nil => intro size _ _; exact ⟨[], rfl⟩
  | cons v rest ih =>
    intro size hle hdec
    have hs : size ≠ 0 := by simp at hle; omega
    obtain ⟨w, hw⟩ := hdec v (by simp)
    have hle2 : rest.length ≤ size - 1 := by simp at hle; omega
    obtain ⟨tail, htail⟩ := ih (size - 1) hle2 (fun u hu => hdec u (by simp [hu]))
    exact ⟨(v.name, w) :: tail, by simp [handleVars, hs, hw, htail]⟩

/-- A variable list that exceeds the free slots, with every variable up
to the bound decodable, makes `handleVars` fail with the
"Received too many answers" error. -/
theorem handleVars_too_many (vars : List VarBinding) :
    ∀ size : Nat, size < vars.length →
      (∀ v ∈ vars.take size, ∃ w, decodeVar v = .ok w) →
      handleVars vars size = .error .tooManyAnswers := by
  induction vars with
  | nil => intro size h _; simp at h
  | cons v rest ih =>
    intro size h hdec
    cases hs : size with
    | zero => simp [handleVars]
    | succ n =>
      subst hs
      obtain ⟨w, hw⟩ := hdec v (by simp)
      have hlt : n < rest.length := by simp at h; omega
      have hdec2 : ∀ u ∈ rest.take n, ∃ w2, decodeVar u = .ok w2 := by
        intro u hu
        exact hdec u (by simp [List.take_succ_cons, hu])
      simp [handleVars, hw, ih n hlt hdec2]

/-- A variable with the end-of-mib-view wire tag decodes to the
dedicated SNMPEndOfMibView error. -/
theorem decodeVar_endOfMibView (v : VarBinding)
    (h : v.vtype = SNMP_ENDOFMIBVIEW) : decodeVar v = .error .endOfMibView := by
  simp [decodeVar, h, SNMP_ENDOFMIBVIEW, SNMP_NOSUCHOBJECT, SNMP_NOSUCHINSTANCE]

/-- A decode failure occurring after an accepted prefix aborts the
whole variable loop with that failure. -/
theorem handleVars_append_error (e : OpErr) (v : VarBinding) :
    ∀ (typed : List VarBinding) (size : Nat) (pairs : List (List Nat × Value))
      (rest : List VarBinding),
      handleVars typed size = .ok pairs → typed.length < size →
      decodeVar v = .error e →
      handleVars (typed ++ v :: rest) size = .error e := by
  intro typed
  induction typed with
  | nil =>
    intro size pairs rest _ hlt hdv
    have hs : size ≠ 0 := by simp at hlt; omega
    simp [handleVars, hs, hdv]
  | cons u typed2 ih =>
    intro size pairs rest h hlt hdv
    have hs : size ≠ 0 := by
      have : 0 < size := Nat.lt_of_le_of_lt (Nat.zero_le _) hlt
      omega
    simp only [handleVars, hs, if_false] at h
    cases hdu : decodeVar u with
    | error e2 => rw [hdu] at h; simp at h
    | ok w =>
      rw [hdu] at h
      cases hrec : handleVars typed2 (size - 1) with
      | error e2 => rw [hrec] at h; simp at h
      | ok tail =>
        have hlt2 : typed2.length < size - 1 := by simp at hlt; omega
        have := ih (size - 1) tail rest hrec hlt2 hdv
        simp [handleVars, hs, hdu, this]

/-- Inversion of a successful `processResponse`. -/
theorem processResponse_ok_inv (self : SnmpObject) (argc : Nat) (op : Op)
    (resp : ResponsePdu) (res : List (Option (List Nat × Value))) :
    processResponse self argc op resp = .ok res →
    resp.errstat = 0 ∧ resp.varlist ≠ [] ∧
    ∃ pairs, handleVars resp.varlist (tupleSizeFor self op argc) = .ok pairs ∧
      res = pairs.map some ++
        List.replicate (tupleSizeFor self op argc - pairs.length) none := by
  intro h
  simp only [processResponse] at h
  by_cases he : resp.errstat = 0
  · simp only [he, ne_eq, not_true_eq_false, if_false] at h
    by_cases hv : resp.varlist = []
    · simp [hv] at h
    · simp only [hv, if_false] at h
      cases hh : handleVars resp.varlist (tupleSizeFor self op argc) with
      | error e => rw [hh] at h; simp at h
      | ok pairs =>
        rw [hh] at h
        simp only [Except.ok.injEq] at h
        exact ⟨he, hv, pairs, rfl, h.symm⟩
  · exfalso
    cases hfe : findErrorException resp.errstat with
    | some n => simp [he, hfe] at h
    | none => simp [he, hfe] at h

/-- Inversion of a successful `Snmp_op` call: the exchange happened, the
error-status was zero, the answer was non-empty, and the result tuple is
the decoded pairs padded with empty slots. -/
theorem Snmp_op_ok_inv (self : SnmpObject) (args : List PyVal) (op : Op)
    (net : NetOutcome) (res : List (Option (List Nat × Value))) :
    (Snmp_op self args op net).outcome = .ok res →
    ∃ resp, net = .success resp ∧ resp.errstat = 0 ∧ resp.varlist ≠ [] ∧
      ∃ pairs, handleVars resp.varlist (tupleSizeFor self op args.length) = .ok pairs ∧
        res = pairs.map some ++
          List.replicate (tupleSizeFor self op args.length - pairs.length) none := by
  intro h
  simp only [Snmp_op] at h
  by_cases h1 : args.length < 1
  · simp [h1] at h
  · simp only [h1, if_false] at h
    by_cases h2 : op = Op.set ∧ args.length % 2 ≠ 0
    · simp [h2] at h
    · simp only [h2, if_false] at h
      by_cases h3 : op = Op.getbulk ∧ self.version = SnmpVersion.v1
      · simp [h3] at h
      · simp only [h3, if_false] at h
        cases hb : buildBindings (decide (op = Op.set)) args with
        | error e => rw [hb] at h; simp at h
        | ok bs =>
          rw [hb] at h
          cases hnet : net with
          | sendFail => rw [hnet] at h; simp at h
          | timedOut => rw [hnet] at h; simp at h
          | disconnected => rw [hnet] at h; simp at h
          | success resp =>
            rw [hnet] at h
            simp only at h
            obtain ⟨he, hv, pairs, hp, hres⟩ :=
              processResponse_ok_inv self args.length op resp res h
            exact ⟨resp, rfl, he, hv, pairs, hp, hres⟩

/-- `getD` of the padded result tuple inside the filled prefix. -/
theorem getD_map_some_append (pairs : List (List Nat × Value))
    (pad : List (Option (List Nat × Value))) :
    ∀ i, i < pairs.length →
      (pairs.map some ++ pad).getD i none = some (pairs.getD i default) := by
  induction pairs with
  | nil => intro i hi; simp at hi
  | cons p rest ih =>
    intro i hi
    cases i with
    | zero => simp
    | succ j =>
      have hj : j < rest.length := by simpa using hi
      simpa using ih j hj

/-! ### Claim theorems -/

/-- C1: decoding a Counter64-tagged (or Opaque 64-bit) variable
reconstructs the unsigned value as `(high <<< 32) ||| low` from the two
32-bit halves, bit-exactly; in particular for `high = 1`, `low = 0` the
decoded value is `2 ^ 32`, not `0` and not `2 * low`. -/
theorem C1_counter64_reconstruction :
    (∀ high low : Nat, high < 2 ^ 32 → low < 2 ^ 32 →
      decodeCounter64 high low = (high <<< 32) ||| low) ∧
    (∀ v : VarBinding,
      v.vtype = ASN_COUNTER64 ∨ v.vtype = ASN_OPAQUE_U64 ∨
      v.vtype = ASN_OPAQUE_I64 ∨ v.vtype = ASN_OPAQUE_COUNTER64 →
      decodeVar v = .ok (.uint64 (decodeCounter64 v.c64high v.c64low))) ∧
    decodeCounter64 1 0 = 2 ^ 32 ∧
    decodeCounter64 1 0 ≠ 0 ∧
    decodeCounter64 1 0 ≠ 2 * 0 := by
  refine ⟨?_, ?_, by decide, by decide, by decide⟩
  · intro high low hh hl
    have hshift : high <<< 32 = high * 2 ^ 32 := Nat.shiftLeft_eq high 32
    have hlt : high <<< 32 + low < 2 ^ 64 := by
      rw [hshift]
      have h1 : high * 2 ^ 32 ≤ (2 ^ 32 - 1) * 2 ^ 32 :=
        Nat.mul_le_mul_right _ (by omega)
      have h2 : ((2:Nat) ^ 32 - 1) * 2 ^ 32 + 2 ^ 32 = 2 ^ 64 := by norm_num
      omega
    rw [decodeCounter64, Nat.mod_eq_of_lt hlt, shiftLeft_lor_eq_add high 32 low hl]
  · intro v hv
    rcases hv with h | h | h | h <;>
      simp [decodeVar, h, ASN_COUNTER64, ASN_OPAQUE_U64, ASN_OPAQUE_I64,
        ASN_OPAQUE_COUNTER64, SNMP_NOSUCHOBJECT, SNMP_NOSUCHINSTANCE,
        SNMP_ENDOFMIBVIEW, ASN_INTEGER, ASN_UINTEGER, ASN_TIMETICKS,
        ASN_GAUGE, ASN_COUNTER, ASN_OCTET_STR, ASN_BIT_STR, ASN_OBJECT_ID,
        ASN_IPADDRESS]

/-- C2: every error-status in the fixed 18-entry table raises its own
distinct exception kind, and any non-zero error-status outside the
table raises the generic SNMPException carrying the raw numeric code. -/
theorem C2_error_status_mapping :
    (∀ p ∈ SnmpErrorToException, findErrorException p.1 = some p.2) ∧
    (SnmpErrorToException.map Prod.fst).Nodup ∧
    (SnmpErrorToException.map Prod.snd).Nodup ∧
    SnmpErrorToException.length = 18 ∧
    (∀ code : Nat, code ∉ SnmpErrorToException.map Prod.fst →
      findErrorException code = none) ∧
    (∀ (self : SnmpObject) (args : List PyVal) (op : Op) (resp : ResponsePdu),
      1 ≤ args.length →
      ¬(op = Op.set ∧ args.length % 2 ≠ 0) →
      ¬(op = Op.getbulk ∧ self.version = SnmpVersion.v1) →
      (∃ bs, buildBindings (decide (op = Op.set)) args = .ok bs) →
      resp.errstat ≠ 0 →
      (Snmp_op self args op (.success resp)).outcome =
        (match findErrorException resp.errstat with
         | some name => Except.error (.mappedError resp.errstat name)
         | none => Except.error (.unknownError resp.errstat))) := by
  refine ⟨by decide, by decide, by decide, by decide, ?_, ?_⟩
  · intro code hcode
    simp [SnmpErrorToException, SNMP_ERR_TOOBIG, SNMP_ERR_NOSUCHNAME,
      SNMP_ERR_BADVALUE, SNMP_ERR_READONLY, SNMP_ERR_GENERR, SNMP_ERR_NOACCESS,
      SNMP_ERR_WRONGTYPE, SNMP_ERR_WRONGLENGTH, SNMP_ERR_WRONGENCODING,
      SNMP_ERR_WRONGVALUE, SNMP_ERR_NOCREATION, SNMP_ERR_INCONSISTENTVALUE,
      SNMP_ERR_RESOURCEUNAVAILABLE, SNMP_ERR_COMMITFAILED, SNMP_ERR_UNDOFAILED,
      SNMP_ERR_AUTHORIZATIONERROR, SNMP_ERR_NOTWRITABLE,
      SNMP_ERR_INCONSISTENTNAME] at hcode
    push_neg at hcode
    obtain ⟨g1, g2, g3, g4, g5, g6, g7, g8, g9, g10, g11, g12, g13, g14, g15,
      g16, g17, g18⟩ := hcode
    simp [findErrorException, findErrName, SnmpErrorToException,
      SNMP_ERR_TOOBIG, SNMP_ERR_NOSUCHNAME, SNMP_ERR_BADVALUE,
      SNMP_ERR_READONLY, SNMP_ERR_GENERR, SNMP_ERR_NOACCESS,
      SNMP_ERR_WRONGTYPE, SNMP_ERR_WRONGLENGTH, SNMP_ERR_WRONGENCODING,
      SNMP_ERR_WRONGVALUE, SNMP_ERR_NOCREATION, SNMP_ERR_INCONSISTENTVALUE,
      SNMP_ERR_RESOURCEUNAVAILABLE, SNMP_ERR_COMMITFAILED, SNMP_ERR_UNDOFAILED,
      SNMP_ERR_AUTHORIZATIONERROR, SNMP_ERR_NOTWRITABLE,
      SNMP_ERR_INCONSISTENTNAME,
      g1, g2, g3, g4, g5, g6, g7, g8, g9, g10, g11, g12, g13, g14, g15,
      g16, g17, g18]
  · intro self args op resp h1 h2 h3 hb he
    obtain ⟨bs, hbs⟩ := hb
    have h1x : ¬(args.length < 1) := by omega
    simp only [Snmp_op, h1x, if_false, h2, h3, hbs, processResponse, he,
      ne_eq, not_false_eq_true, if_true]

/-- Witness for C2 at concrete inputs: a table code (noSuchName = 2), a
table lookup, and an unlisted code (99). -/
theorem C2_error_status_mapping_witness :
    findErrorException SNMP_ERR_NOSUCHNAME = some "SNMPNoSuchName" ∧
    (Snmp_op ⟨SnmpVersion.v2c, 0, 40, true⟩ [PyVal.tuple [PyVal.int 1, PyVal.int 3]]
      Op.get (.success ⟨2, []⟩)).outcome = .error (.mappedError 2 "SNMPNoSuchName") ∧
    (Snmp_op ⟨SnmpVersion.v2c, 0, 40, true⟩ [PyVal.tuple [PyVal.int 1, PyVal.int 3]]
      Op.get (.success ⟨99, []⟩)).outcome = .error (.unknownError 99) := by
  refine ⟨?_, ?_, ?_⟩
  · exact C2_error_status_mapping.1 (SNMP_ERR_NOSUCHNAME, "SNMPNoSuchName") (by decide)
  · have h := C2_error_status_mapping.2.2.2.2.2 ⟨SnmpVersion.v2c, 0, 40, true⟩
      [PyVal.tuple [PyVal.int 1, PyVal.int 3]] Op.get ⟨2, []⟩
      (by decide) (by decide) (by decide)
      ⟨[⟨[1, 3], none⟩], by decide⟩ (by decide)
    rw [h]
    decide
  · have h := C2_error_status_mapping.2.2.2.2.2 ⟨SnmpVersion.v2c, 0, 40, true⟩
      [PyVal.tuple [PyVal.int 1, PyVal.int 3]] Op.get ⟨99, []⟩
      (by decide) (by decide) (by decide)
      ⟨[⟨[1, 3], none⟩], by decide⟩ (by decide)
    rw [h]
    decide

/-- C3 counterexample: a getbulk (non_repeaters 0, max_repetitions 10)
whose peer returns four typed bindings followed by an end-of-mib-view
sentinel does NOT yield the four typed bindings — the call fails with
the SNMPEndOfMibView exception, discarding them. -/
theorem C3_getbulk_endofmibview_counterexample :
    (Snmp_op ⟨SnmpVersion.v2c, 0, 10, true⟩ [PyVal.tuple [PyVal.int 1, PyVal.int 3]]
      Op.getbulk
      (.success ⟨0,
        [⟨[1, 3, 1], ASN_INTEGER, 7, [], [], 0, 0, 0, 0⟩,
         ⟨[1, 3, 2], ASN_INTEGER, 8, [], [], 0, 0, 0, 0⟩,
         ⟨[1, 3, 3], ASN_INTEGER, 9, [], [], 0, 0, 0, 0⟩,
         ⟨[1, 3, 4], ASN_INTEGER, 10, [], [], 0, 0, 0, 0⟩,
         ⟨[1, 3, 5], SNMP_ENDOFMIBVIEW, 0, [], [], 0, 0, 0, 0⟩]⟩)).outcome
      = .error .endOfMibView := by decide

/-- C3 amended: a getbulk whose response contains typed bindings followed
by an end-of-mib-view sentinel (within the result bound) raises the
distinct SNMPEndOfMibView exception, discarding the typed bindings; a
short GETBULK result with no sentinel is not an error — it succeeds with
the decoded bindings (remaining slots unfilled). -/
theorem C3_getbulk_endofmibview_amended :
    ∀ (self : SnmpObject) (args : List PyVal),
      1 ≤ args.length →
      self.version ≠ SnmpVersion.v1 →
      (∃ bs, buildBindings false args = .ok bs) →
      (∀ (typed : List VarBinding) (v : VarBinding) (rest : List VarBinding)
         (pairs : List (List Nat × Value)),
        handleVars typed (tupleSizeFor self Op.getbulk args.length) = .ok pairs →
        typed.length < tupleSizeFor self Op.getbulk args.length →
        v.vtype = SNMP_ENDOFMIBVIEW →
        (Snmp_op self args Op.getbulk (.success ⟨0, typed ++ v :: rest⟩)).outcome =
          .error .endOfMibView) ∧
      (∀ (vars : List VarBinding) (pairs : List (List Nat × Value)),
        vars ≠ [] →
        handleVars vars (tupleSizeFor self Op.getbulk args.length) = .ok pairs →
        (Snmp_op self args Op.getbulk (.success ⟨0, vars⟩)).outcome =
          .ok (pairs.map some ++
            List.replicate (tupleSizeFor self Op.getbulk args.length - pairs.length)
              none)) := by
  intro self args h1 hver hb
  obtain ⟨bs, hbs⟩ := hb
  have h1x : ¬(args.length < 1) := by omega
  have h2 : ¬(Op.getbulk = Op.set ∧ args.length % 2 ≠ 0) := by simp
  have h3 : ¬(Op.getbulk = Op.getbulk ∧ self.version = SnmpVersion.v1) := by
    simp [hver]
  have hbs2 : buildBindings (decide (Op.getbulk = Op.set)) args = .ok bs := by
    simpa using hbs
  constructor
  · intro typed v rest pairs hpairs hlt hv
    have hstop : handleVars (typed ++ v :: rest)
        (tupleSizeFor self Op.getbulk args.length) = .error .endOfMibView :=
      handleVars_append_error .endOfMibView v typed _ pairs rest hpairs hlt
        (decodeVar_endOfMibView v hv)
    have hne : typed ++ v :: rest ≠ [] := by simp
    simp only [Snmp_op, h1x, if_false, h2, h3, hbs2, processResponse,
      ne_eq, not_true_eq_false, if_false, hne, hstop]
    simp [hver]
  · intro vars pairs hne hpairs
    simp only [Snmp_op, h1x, if_false, h2, h3, hbs2, processResponse,
      ne_eq, not_true_eq_false, if_false, hne, hpairs]
    simp [hver, hne, hpairs]

/-- Witness for C3's amended theorem at a concrete input: two typed
bindings then end-of-mib-view under max_repetitions 10, and a short
two-binding success. -/
theorem C3_getbulk_endofmibview_amended_witness :
    (Snmp_op ⟨SnmpVersion.v2c, 0, 10, true⟩ [PyVal.tuple [PyVal.int 1, PyVal.int 3]]
      Op.getbulk
      (.success ⟨0,
        [⟨[1, 3, 1], ASN_INTEGER, 7, [], [], 0, 0, 0, 0⟩,
         ⟨[1, 3, 2], ASN_INTEGER, 8, [], [], 0, 0, 0, 0⟩,
         ⟨[1, 3, 9], SNMP_ENDOFMIBVIEW, 0, [], [], 0, 0, 0, 0⟩]⟩)).outcome
      = .error .endOfMibView ∧
    (Snmp_op ⟨SnmpVersion.v2c, 0, 10, true⟩ [PyVal.tuple [PyVal.int 1, PyVal.int 3]]
      Op.getbulk
      (.success ⟨0,
        [⟨[1, 3, 1], ASN_INTEGER, 7, [], [], 0, 0, 0, 0⟩,
         ⟨[1, 3, 2], ASN_INTEGER, 8, [], [], 0, 0, 0, 0⟩]⟩)).outcome
      = .ok ([([1, 3, 1], Value.intVal 7), ([1, 3, 2], Value.intVal 8)].map some ++
          List.replicate 8 none) := by
  have h := C3_getbulk_endofmibview_amended ⟨SnmpVersion.v2c, 0, 10, true⟩
    [PyVal.tuple [PyVal.int 1, PyVal.int 3]] (by decide) (by decide)
    ⟨[⟨[1, 3], none⟩], by decide⟩
  constructor
  · exact h.1 [⟨[1, 3, 1], ASN_INTEGER, 7, [], [], 0, 0, 0, 0⟩,
      ⟨[1, 3, 2], ASN_INTEGER, 8, [], [], 0, 0, 0, 0⟩]
      ⟨[1, 3, 9], SNMP_ENDOFMIBVIEW, 0, [], [], 0, 0, 0, 0⟩ []
      [([1, 3, 1], Value.intVal 7), ([1, 3, 2], Value.intVal 8)]
      (by decide) (by decide) rfl
  · exact h.2 [⟨[1, 3, 1], ASN_INTEGER, 7, [], [], 0, 0, 0, 0⟩,
      ⟨[1, 3, 2], ASN_INTEGER, 8, [], [], 0, 0, 0, 0⟩]
      [([1, 3, 1], Value.intVal 7), ([1, 3, 2], Value.intVal 8)]
      (by decide) (by decide)

/-- C4: a SET call with an odd number of arguments (an OID with no
paired value) fails with the arity TypeError before any PDU is built or
anything is sent, and the session object is unchanged. -/
theorem C4_set_odd_arity_local :
    ∀ (self : SnmpObject) (args : List PyVal) (net : NetOutcome),
      args.length % 2 = 1 →
      Snmp_op self args Op.set net =
        ⟨.error .oddArityForSet, false, false, self⟩ := by
  intro self args net hodd
  have h1 : ¬(args.length < 1) := by omega
  have h2 : Op.set = Op.set ∧ args.length % 2 ≠ 0 := by simp [hodd]
  simp [Snmp_op, h1, h2]

/-- Witness for C4: one OID, no value. -/
theorem C4_set_odd_arity_local_witness :
    Snmp_op ⟨SnmpVersion.v2c, 0, 40, true⟩ [PyVal.tuple [PyVal.int 1, PyVal.int 3]]
      Op.set .sendFail =
      ⟨.error .oddArityForSet, false, false, ⟨SnmpVersion.v2c, 0, 40, true⟩⟩ :=
  C4_set_odd_arity_local ⟨SnmpVersion.v2c, 0, 40, true⟩
    [PyVal.tuple [PyVal.int 1, PyVal.int 3]] .sendFail (by decide)

/-- C5: getbulk on an SNMPv1 session fails with the local
"getbulk not supported in SNMPv1" error before any PDU is built or
anything is sent; the session object is unchanged. -/
theorem C5_getbulk_v1_local :
    ∀ (self : SnmpObject) (args : List PyVal) (net : NetOutcome),
      self.version = SnmpVersion.v1 →
      1 ≤ args.length →
      Snmp_op self args Op.getbulk net =
        ⟨.error .getbulkOnV1, false, false, self⟩ := by
  intro self args net hv h1
  have h1x : ¬(args.length < 1) := by omega
  have h2 : ¬(Op.getbulk = Op.set ∧ args.length % 2 ≠ 0) := by simp
  have h3 : Op.getbulk = Op.getbulk ∧ self.version = SnmpVersion.v1 := by
    simp [hv]
  simp [Snmp_op, h1x, h2, h3]

/-- Witness for C5. -/
theorem C5_getbulk_v1_local_witness :
    Snmp_op ⟨SnmpVersion.v1, 0, 40, false⟩ [PyVal.tuple [PyVal.int 1, PyVal.int 3]]
      Op.getbulk .sendFail =
      ⟨.error .getbulkOnV1, false, false, ⟨SnmpVersion.v1, 0, 40, false⟩⟩ :=
  C5_getbulk_v1_local ⟨SnmpVersion.v1, 0, 40, false⟩
    [PyVal.tuple [PyVal.int 1, PyVal.int 3]] .sendFail rfl (by decide)

/-- An auth password with no auth protocol is rejected by the
auth-parameter block. -/
theorem checkAuth_password_without_proto (a : InitArgs) (kuOk : Bool)
    (hproto : a.authprotocol = none) (hpwd : a.authpassword.isSome) :
    checkAuth a kuOk = .error .authPasswordWithoutProtocol := by
  cases hp : a.authpassword with
  | none => rw [hp] at hpwd; simp at hpwd
  | some s => simp [checkAuth, hproto, hp]

/-- If the auth block succeeds although no auth protocol was supplied,
the resulting protocol is absent. -/
theorem checkAuth_ok_none (a : InitArgs) (kuOk : Bool) (p : Option AuthProto)
    (hproto : a.authprotocol = none) (h : checkAuth a kuOk = .ok p) :
    p = none := by
  cases hp : a.authpassword with
  | none => simp [checkAuth, hproto, hp] at h; exact h.symm
  | some s => simp [checkAuth, hproto, hp] at h

/-- A privacy password is rejected by the priv-parameter block whenever
the privacy protocol or the (already validated) auth protocol is
missing. -/
theorem checkPriv_password_incomplete (a : InitArgs) (authProto : Option AuthProto)
    (kuOk : Bool) (hpwd : a.privpassword.isSome)
    (hmiss : a.privprotocol = none ∨ authProto = none) :
    ∃ e, checkPriv a authProto kuOk = .error e := by
  cases hp : a.privpassword with
  | none => rw [hp] at hpwd; simp at hpwd
  | some s =>
    cases hpp : a.privprotocol with
    | none => exact ⟨.privPasswordWithoutProtocols, by simp [checkPriv, hpp, hp]⟩
    | some ps =>
      have hauth : authProto = none := by
        rcases hmiss with h | h
        · rw [hpp] at h; simp at h
        · exact h
      cases hparse : parsePrivProto ps with
      | none => exact ⟨.invalidPrivProtocol ps, by simp [checkPriv, hpp, hparse]⟩
      | some p =>
        exact ⟨.privPasswordWithoutProtocols,
          by simp [checkPriv, hpp, hparse, hp, hauth]⟩

/-- C6: constructing a session with a privacy password but without both
an auth protocol and a privacy protocol fails locally, before
`snmp_sess_open` is attempted; likewise an auth password without an
auth protocol. -/
theorem C6_password_requires_protocols :
    ∀ (a : InitArgs) (envDefault : SnmpVersion) (kuOk openOk : Bool),
      (a.privpassword.isSome ∧ (a.authprotocol = none ∨ a.privprotocol = none)) ∨
      (a.authpassword.isSome ∧ a.authprotocol = none) →
      (∃ e, (Snmp_init a envDefault kuOk openOk).outcome = .error e) ∧
      (Snmp_init a envDefault kuOk openOk).opened = false := by
  intro a envDefault kuOk openOk hyp
  cases hv : parseVersion a.version envDefault with
  | none =>
    exact ⟨⟨.invalidVersion a.version, by simp [Snmp_init, hv]⟩,
      by simp [Snmp_init, hv]⟩
  | some ver =>
    cases hca : checkAuth a kuOk with
    | error e =>
      exact ⟨⟨e, by simp [Snmp_init, hv, hca]⟩, by simp [Snmp_init, hv, hca]⟩
    | ok authProto =>
      rcases hyp with ⟨hpwd, hmiss⟩ | ⟨hpwd, hmiss⟩
      · have hmiss2 : a.privprotocol = none ∨ authProto = none := by
          rcases hmiss with h | h
          · exact Or.inr (checkAuth_ok_none a kuOk authProto h hca)
          · exact Or.inl h
        obtain ⟨e, hcp⟩ := checkPriv_password_incomplete a authProto kuOk hpwd hmiss2
        exact ⟨⟨e, by simp [Snmp_init, hv, hca, hcp]⟩,
          by simp [Snmp_init, hv, hca, hcp]⟩
      · have := checkAuth_password_without_proto a kuOk hmiss hpwd
        rw [this] at hca
        simp at hca

/-- Witness for C6: privacy password with a privacy protocol but no auth
protocol. -/
theorem C6_password_requires_protocols_witness :
    (∃ e, (Snmp_init
      { host := "localhost", community := some "public", version := 3,
        privprotocol := some "DES", privpassword := some "secret" }
      SnmpVersion.v2c true true).outcome = .error e) ∧
    (Snmp_init
      { host := "localhost", community := some "public", version := 3,
        privprotocol := some "DES", privpassword := some "secret" }
      SnmpVersion.v2c true true).opened = false :=
  C6_password_requires_protocols
    { host := "localhost", community := some "public", version := 3,
      privprotocol := some "DES", privpassword := some "secret" }
    SnmpVersion.v2c true true (Or.inl ⟨rfl, Or.inl rfl⟩)

/-- C7: a successful get / getnext / set call returns a tuple of exactly
one slot per input binding (N OIDs, or N OID/value pairs for set), each
filled slot pairing the response OID with its decoded value in response
order; a response carrying more bindings than requested cannot succeed,
and when the response carries exactly one binding per request the whole
tuple is filled. -/
theorem C7_response_binding_count :
    ∀ (self : SnmpObject) (args : List PyVal) (op : Op) (resp : ResponsePdu),
      op = Op.get ∨ op = Op.getnext ∨ op = Op.set →
      (∀ res : List (Option (List Nat × Value)),
        (Snmp_op self args op (.success resp)).outcome = .ok res →
        ((op = Op.set → tupleSizeFor self op args.length = args.length / 2) ∧
         (op ≠ Op.set → tupleSizeFor self op args.length = args.length)) ∧
        res.length = tupleSizeFor self op args.length ∧
        resp.varlist.length ≤ tupleSizeFor self op args.length ∧
        (∀ i, i < resp.varlist.length →
          ∃ w, decodeVar (resp.varlist.getD i default) = .ok w ∧
            res.getD i none = some ((resp.varlist.getD i default).name, w)) ∧
        (resp.varlist.length = tupleSizeFor self op args.length →
          ∀ x ∈ res, x.isSome = true)) ∧
      (tupleSizeFor self op args.length < resp.varlist.length →
        ∃ e, (Snmp_op self args op (.success resp)).outcome = .error e) := by
  intro self args op resp hop
  have hfirst : ∀ res : List (Option (List Nat × Value)),
      (Snmp_op self args op (.success resp)).outcome = .ok res →
      ((op = Op.set → tupleSizeFor self op args.length = args.length / 2) ∧
       (op ≠ Op.set → tupleSizeFor self op args.length = args.length)) ∧
      res.length = tupleSizeFor self op args.length ∧
      resp.varlist.length ≤ tupleSizeFor self op args.length ∧
      (∀ i, i < resp.varlist.length →
        ∃ w, decodeVar (resp.varlist.getD i default) = .ok w ∧
          res.getD i none = some ((resp.varlist.getD i default).name, w)) ∧
      (resp.varlist.length = tupleSizeFor self op args.length →
        ∀ x ∈ res, x.isSome = true) := by
    intro res hok
    obtain ⟨resp2, hnet, he, hv, pairs, hp, hres⟩ :=
      Snmp_op_ok_inv self args op (.success resp) res hok
    injection hnet with hinj
    subst hinj
    obtain ⟨hlen, hle, hidx⟩ := handleVars_ok_iff resp.varlist _ pairs hp
    have hsplit : (op = Op.set → tupleSizeFor self op args.length = args.length / 2) ∧
        (op ≠ Op.set → tupleSizeFor self op args.length = args.length) := by
      constructor
      · intro h; subst h; simp [tupleSizeFor]
      · intro h
        rcases hop with rfl | rfl | rfl
        · simp [tupleSizeFor]
        · simp [tupleSizeFor]
        · exact absurd rfl h
    have hreslen : res.length = tupleSizeFor self op args.length := by
      rw [hres]
      simp only [List.length_append, List.length_map, List.length_replicate]
      omega
    refine ⟨hsplit, hreslen, by omega, ?_, ?_⟩
    · intro i hi
      obtain ⟨w, hw1, hw2⟩ := hidx i hi
      refine ⟨w, hw1, ?_⟩
      rw [hres, getD_map_some_append pairs _ i (by omega), hw2]
    · intro hfull x hx
      rw [hres] at hx
      have hz : tupleSizeFor self op args.length - pairs.length = 0 := by omega
      rw [hz] at hx
      simp only [List.replicate_zero, List.append_nil, List.mem_map] at hx
      obtain ⟨p, _, rfl⟩ := hx
      rfl
  refine ⟨hfirst, ?_⟩
  intro hgt
  cases hout : (Snmp_op self args op (.success resp)).outcome with
  | error e => exact ⟨e, rfl⟩
  | ok res =>
    have := (hfirst res hout).2.2.1
    omega

/-- Witness for C7: one-OID get answered by one INTEGER binding. -/
theorem C7_response_binding_count_witness :
    ([some (([1, 3, 1], Value.intVal 7))] :
        List (Option (List Nat × Value))).length =
      tupleSizeFor ⟨SnmpVersion.v2c, 0, 40, true⟩ Op.get 1 ∧
    ([(⟨[1, 3, 1], ASN_INTEGER, 7, [], [], 0, 0, 0, 0⟩ : VarBinding)]).length ≤
      tupleSizeFor ⟨SnmpVersion.v2c, 0, 40, true⟩ Op.get 1 := by
  have h := (C7_response_binding_count ⟨SnmpVersion.v2c, 0, 40, true⟩
    [PyVal.tuple [PyVal.int 1, PyVal.int 3]] Op.get
    ⟨0, [⟨[1, 3, 1], ASN_INTEGER, 7, [], [], 0, 0, 0, 0⟩]⟩
    (Or.inl rfl)).1 [some (([1, 3, 1], Value.intVal 7))] (by decide)
  exact ⟨h.2.1, h.2.2.1⟩

/-- C8: a response variable whose wire tag is not one of the recognized
tags (nor a sentinel tag) makes decoding fail with the unknown-type
error carrying the raw tag, and the whole operation surfaces that error
to the caller instead of coercing or skipping the variable. -/
theorem C8_unknown_wire_type :
    (∀ v : VarBinding, v.vtype ∉ recognizedTags →
      decodeVar v = .error (.unknownType v.vtype)) ∧
    (∀ (self : SnmpObject) (args : List PyVal) (op : Op) (v : VarBinding)
       (rest : List VarBinding),
      1 ≤ args.length →
      ¬(op = Op.set ∧ args.length % 2 ≠ 0) →
      ¬(op = Op.getbulk ∧ self.version = SnmpVersion.v1) →
      (∃ bs, buildBindings (decide (op = Op.set)) args = .ok bs) →
      v.vtype ∉ recognizedTags →
      1 ≤ tupleSizeFor self op args.length →
      (Snmp_op self args op (.success ⟨0, v :: rest⟩)).outcome =
        .error (.unknownType v.vtype)) := by
  have hdec : ∀ v : VarBinding, v.vtype ∉ recognizedTags →
      decodeVar v = .error (.unknownType v.vtype) := by
    intro v h
    simp [recognizedTags, SNMP_NOSUCHOBJECT, SNMP_NOSUCHINSTANCE,
      SNMP_ENDOFMIBVIEW, ASN_INTEGER, ASN_UINTEGER, ASN_TIMETICKS, ASN_GAUGE,
      ASN_COUNTER, ASN_OCTET_STR, ASN_BIT_STR, ASN_OBJECT_ID, ASN_IPADDRESS,
      ASN_COUNTER64, ASN_OPAQUE_U64, ASN_OPAQUE_I64, ASN_OPAQUE_COUNTER64,
      ASN_OPAQUE_FLOAT, ASN_OPAQUE_DOUBLE] at h
    push_neg at h
    obtain ⟨g1, g2, g3, g4, g5, g6, g7, g8, g9, g10, g11, g12, g13, g14, g15,
      g16, g17, g18⟩ := h
    simp [decodeVar, SNMP_NOSUCHOBJECT, SNMP_NOSUCHINSTANCE, SNMP_ENDOFMIBVIEW,
      ASN_INTEGER, ASN_UINTEGER, ASN_TIMETICKS, ASN_GAUGE, ASN_COUNTER,
      ASN_OCTET_STR, ASN_BIT_STR, ASN_OBJECT_ID, ASN_IPADDRESS, ASN_COUNTER64,
      ASN_OPAQUE_U64, ASN_OPAQUE_I64, ASN_OPAQUE_COUNTER64, ASN_OPAQUE_FLOAT,
      ASN_OPAQUE_DOUBLE, g1, g2, g3, g4, g5, g6, g7, g8, g9, g10, g11, g12,
      g13, g14, g15, g16, g17, g18]
  refine ⟨hdec, ?_⟩
  intro self args op v rest h1 h2 h3 hb hunk hsize
  obtain ⟨bs, hbs⟩ := hb
  have h1x : ¬(args.length < 1) := by omega
  have hvars : handleVars (v :: rest) (tupleSizeFor self op args.length) =
      .error (.unknownType v.vtype) := by
    have hs : tupleSizeFor self op args.length ≠ 0 := by omega
    simp [handleVars, hs, hdec v hunk]
  have hne : (v :: rest : List VarBinding) ≠ [] := by simp
  simp only [Snmp_op, h1x, if_false, h2, h3, hbs, processResponse, ne_eq,
    not_true_eq_false, if_false, hne, hvars]

/-- Witness for C8: tag 0x99 is rejected with the raw tag, alone and
through a whole get call. -/
theorem C8_unknown_wire_type_witness :
    decodeVar { name := [1, 3, 1], vtype := 0x99 } = .error (.unknownType 0x99) ∧
    (Snmp_op ⟨SnmpVersion.v2c, 0, 40, true⟩ [PyVal.tuple [PyVal.int 1, PyVal.int 3]]
      Op.get (.success ⟨0, [{ name := [1, 3, 1], vtype := 0x99 }]⟩)).outcome =
      .error (.unknownType 0x99) := by
  constructor
  · exact C8_unknown_wire_type.1 { name := [1, 3, 1], vtype := 0x99 } (by decide)
  · exact C8_unknown_wire_type.2 ⟨SnmpVersion.v2c, 0, 40, true⟩
      [PyVal.tuple [PyVal.int 1, PyVal.int 3]] Op.get
      { name := [1, 3, 1], vtype := 0x99 } [] (by decide) (by decide) (by decide)
      ⟨[⟨[1, 3], none⟩], by decide⟩ (by decide) (by decide)

/-- All-integer tuples convert, preserving the element count. -/
theorem oidElems_all_int (elems : List PyVal)
    (h : ∀ e ∈ elems, ∃ i : Int, e = PyVal.int i) :
    ∃ o, oidElems elems = .ok o ∧ o.length = elems.length := by
  induction elems with
  | nil => exact ⟨[], rfl, rfl⟩
  | cons x rest ih =>
    obtain ⟨i, hi⟩ := h x (by simp)
    subst hi
    obtain ⟨o, ho, hlen⟩ := ih (fun e he => h e (by simp [he]))
    exact ⟨ulongOfInt i :: o, by simp [oidElems, ho, Except.map], by simp [hlen]⟩

/-- A tuple containing any non-integer element is rejected by the
element loop. -/
theorem oidElems_non_int (elems : List PyVal)
    (h : ∃ e ∈ elems, ∀ i : Int, e ≠ PyVal.int i) :
    oidElems elems = .error .oidElementNotInteger := by
  induction elems with
  | nil => simp at h
  | cons x rest ih =>
    obtain ⟨e, he, hni⟩ := h
    cases x with
    | int i =>
      have hmem : e ∈ rest := by
        rcases List.mem_cons.mp he with rfl | hm
        · exact absurd rfl (hni i)
        · exact hm
      simp [oidElems, ih ⟨e, hmem, hni⟩, Except.map]
    | str s => simp [oidElems]
    | tuple l => simp [oidElems]
    | packed t b => simp [oidElems]
    | obj => simp [oidElems]

/-- C9: an OID tuple longer than the wire maximum of 128, or containing
a non-integer element, is rejected; all-integer tuples of length 0..128
are accepted by the OID conversion; and inside any operation a bad OID
aborts the call locally, with nothing sent and the session unchanged. -/
theorem C9_oid_validation :
    (∀ elems : List PyVal, elems.length > MAX_OID_LEN →
      tuple2oid (.tuple elems) MAX_OID_LEN = .error .oidTooLarge) ∧
    (∀ elems : List PyVal, elems.length ≤ MAX_OID_LEN →
      (∀ e ∈ elems, ∃ i : Int, e = PyVal.int i) →
      ∃ o, tuple2oid (.tuple elems) MAX_OID_LEN = .ok o ∧
        o.length = elems.length) ∧
    (∀ elems : List PyVal, elems.length ≤ MAX_OID_LEN →
      (∃ e ∈ elems, ∀ i : Int, e ≠ PyVal.int i) →
      tuple2oid (.tuple elems) MAX_OID_LEN = .error .oidElementNotInteger) ∧
    (∀ (self : SnmpObject) (op : Op) (net : NetOutcome) (bad : PyVal)
       (rest : List PyVal) (e : OpErr),
      ¬(op = Op.set ∧ (bad :: rest).length % 2 ≠ 0) →
      ¬(op = Op.getbulk ∧ self.version = SnmpVersion.v1) →
      tuple2oid bad MAX_OID_LEN = .error e →
      (Snmp_op self (bad :: rest) op net).outcome = .error e ∧
      (Snmp_op self (bad :: rest) op net).sent = false ∧
      (Snmp_op self (bad :: rest) op net).finalState = self) := by
  refine ⟨?_, ?_, ?_, ?_⟩
  · intro elems hlong
    simp [tuple2oid, hlong]
  · intro elems hlen hint
    obtain ⟨o, ho, holen⟩ := oidElems_all_int elems hint
    exact ⟨o, by simp [tuple2oid, Nat.not_lt.mpr hlen, ho], holen⟩
  · intro elems hlen hbad
    simp [tuple2oid, Nat.not_lt.mpr hlen, oidElems_non_int elems hbad]
  · intro self op net bad rest e h2 h3 htup
    have h1x : ¬((bad :: rest).length < 1) := by simp
    have hbuild : buildBindings (decide (op = Op.set)) (bad :: rest) = .error e := by
      simp [buildBindings, htup]
    have h2x : ¬(op = Op.set ∧ (rest.length + 1) % 2 = 1) := by
      intro hcon
      obtain ⟨ha, hb⟩ := hcon
      refine h2 ⟨ha, ?_⟩
      simp only [List.length_cons]
      omega
    refine ⟨?_, ?_, ?_⟩ <;> simp [Snmp_op, h1x, h2x, h3, hbuild]

/-- Witness for C9: an oversized OID, a good OID, a non-integer element,
and a get call on a malformed OID argument. -/
theorem C9_oid_validation_witness :
    tuple2oid (.tuple (List.replicate 129 (PyVal.int 1))) MAX_OID_LEN =
      .error .oidTooLarge ∧
    (∃ o, tuple2oid (.tuple [PyVal.int 1, PyVal.int 3]) MAX_OID_LEN = .ok o ∧
      o.length = 2) ∧
    tuple2oid (.tuple [PyVal.str "x"]) MAX_OID_LEN =
      .error .oidElementNotInteger ∧
    (Snmp_op ⟨SnmpVersion.v2c, 0, 40, true⟩ [PyVal.str "a"] Op.get
      .sendFail).outcome = .error .oidNotTuple ∧
    (Snmp_op ⟨SnmpVersion.v2c, 0, 40, true⟩ [PyVal.str "a"] Op.get
      .sendFail).sent = false := by
  have h4 := C9_oid_validation.2.2.2 ⟨SnmpVersion.v2c, 0, 40, true⟩ Op.get
    .sendFail (PyVal.str "a") [] .oidNotTuple (by simp) (by simp) rfl
  refine ⟨?_, ?_, ?_, h4.1, h4.2.1⟩
  · exact C9_oid_validation.1 (List.replicate 129 (PyVal.int 1)) (by simp [MAX_OID_LEN])
  · exact C9_oid_validation.2.1 [PyVal.int 1, PyVal.int 3] (by simp [MAX_OID_LEN])
      (by intro e he
          simp at he
          rcases he with rfl | rfl
          · exact ⟨1, rfl⟩
          · exact ⟨3, rfl⟩)
  · exact C9_oid_validation.2.2.1 [PyVal.str "x"] (by simp [MAX_OID_LEN])
      ⟨PyVal.str "x", by simp, fun i h => nomatch h⟩

/-- C10: a successful getbulk returns a tuple of length exactly
`bulk_max_repetitions` (which session construction defaults to 40, with
`bulk_non_repeaters` 0), however many bindings the peer returned; a
reply with more than `bulk_max_repetitions` bindings cannot succeed. -/
theorem C10_getbulk_result_length :
    (∀ (a : InitArgs) (envDefault : SnmpVersion) (kuOk : Bool) (obj : SnmpObject),
      (Snmp_init a envDefault kuOk true).outcome = .ok obj →
      obj.bulk_non_repeaters = 0 ∧ obj.bulk_max_repetitions = 40) ∧
    (∀ (self : SnmpObject) (args : List PyVal) (resp : ResponsePdu)
       (res : List (Option (List Nat × Value))),
      (Snmp_op self args Op.getbulk (.success resp)).outcome = .ok res →
      res.length = self.bulk_max_repetitions ∧
      resp.varlist.length ≤ self.bulk_max_repetitions) ∧
    (∀ (self : SnmpObject) (args : List PyVal) (resp : ResponsePdu),
      self.bulk_max_repetitions < resp.varlist.length →
      ∃ e, (Snmp_op self args Op.getbulk (.success resp)).outcome = .error e) := by
  have hmain : ∀ (self : SnmpObject) (args : List PyVal) (resp : ResponsePdu)
      (res : List (Option (List Nat × Value))),
      (Snmp_op self args Op.getbulk (.success resp)).outcome = .ok res →
      res.length = self.bulk_max_repetitions ∧
      resp.varlist.length ≤ self.bulk_max_repetitions := by
    intro self args resp res hok
    obtain ⟨resp2, hnet, he, hv, pairs, hp, hres⟩ :=
      Snmp_op_ok_inv self args Op.getbulk (.success resp) res hok
    injection hnet with hinj
    subst hinj
    obtain ⟨hlen, hle, _⟩ := handleVars_ok_iff resp.varlist _ pairs hp
    have hsize : tupleSizeFor self Op.getbulk args.length =
        self.bulk_max_repetitions := by
      simp [tupleSizeFor]
    constructor
    · rw [hres]
      simp only [List.length_append, List.length_map, List.length_replicate]
      omega
    · omega
  refine ⟨?_, hmain, ?_⟩
  · intro a envDefault kuOk obj h
    cases hv : parseVersion a.version envDefault with
    | none => simp [Snmp_init, hv] at h
    | some ver =>
      cases hca : checkAuth a kuOk with
      | error e => simp [Snmp_init, hv, hca] at h
      | ok ap =>
        cases hcp : checkPriv a ap kuOk with
        | error e => simp [Snmp_init, hv, hca, hcp] at h
        | ok pp =>
          simp only [Snmp_init, hv, hca, hcp, if_true] at h
          cases h
          simp
  · intro self args resp hgt
    cases hout : (Snmp_op self args Op.getbulk (.success resp)).outcome with
    | error e => exact ⟨e, rfl⟩
    | ok res =>
      have := (hmain self args resp res hout).2
      omega

/-- Witness for C10: default construction yields (0, 40); a getbulk with
max_repetitions 3 answered by one binding returns a 3-slot tuple. -/
theorem C10_getbulk_result_length_witness :
    ((⟨SnmpVersion.v2c, 0, 40, true⟩ : SnmpObject).bulk_non_repeaters = 0 ∧
      (⟨SnmpVersion.v2c, 0, 40, true⟩ : SnmpObject).bulk_max_repetitions = 40) ∧
    ([some (([1, 3, 1], Value.intVal 7)), none, none] :
        List (Option (List Nat × Value))).length =
      (⟨SnmpVersion.v2c, 0, 3, true⟩ : SnmpObject).bulk_max_repetitions := by
  constructor
  · exact C10_getbulk_result_length.1
      { host := "localhost", community := some "public", version := 2 }
      SnmpVersion.v2c true ⟨SnmpVersion.v2c, 0, 40, true⟩ (by decide)
  · exact (C10_getbulk_result_length.2.1 ⟨SnmpVersion.v2c, 0, 3, true⟩
      [PyVal.tuple [PyVal.int 1, PyVal.int 3]]
      ⟨0, [⟨[1, 3, 1], ASN_INTEGER, 7, [], [], 0, 0, 0, 0⟩]⟩
      [some (([1, 3, 1], Value.intVal 7)), none, none] (by decide)).1

/-- Witness for C1 at concrete inputs. -/
theorem C1_counter64_reconstruction_witness :
    decodeCounter64 3 5 = (3 <<< 32) ||| 5 ∧
    decodeVar { name := [1, 3], vtype := ASN_COUNTER64, c64high := 1, c64low := 0 } =
      .ok (.uint64 (decodeCounter64 1 0)) :=
  ⟨C1_counter64_reconstruction.1 3 5 (by norm_num) (by norm_num),
   C1_counter64_reconstruction.2.1
     { name := [1, 3], vtype := ASN_COUNTER64, c64high := 1, c64low := 0 }
     (Or.inl rfl)⟩

end Snimpy
